import Mathlib

/-!
Verification of the FreshDesk spam-filter orchestration core against its
natural-language specification.  The Python sources are shallowly embedded:
pure logic becomes Lean functions, remote HTTP effects become explicit
parameters (failure oracles) plus traces of attempted remote calls, and
Python exceptions become `Except` values.  Confidences and thresholds
(Python floats compared only with `>=`) are embedded as rationals.
-/

namespace SpamFilter

/-- Python exception values that appear along the analysed code paths. -/
inductive PyErr where
  | valueError (msg : String)
  | typeError (msg : String)
  | jsonDecodeError
  | keyError (msg : String)
  | nameError (name : String)
  | apiError (msg : String)
  | connectionError (msg : String)
  | requestError (msg : String)
  | other (msg : String)
deriving DecidableEq, Repr

/-- Rendering of `str(e)` for the exception messages interpolated into
`f"Analysis failed: {str(e)}"` and friends. -/
def PyErr.str : PyErr → String
  | .valueError m => m
  | .typeError m => m
  | .jsonDecodeError => "Expecting value"
  | .keyError m => m
  | .nameError n => "name " ++ n ++ " is not defined"
  | .apiError m => m
  | .connectionError m => m
  | .requestError m => m
  | .other m => m

/-! ### Python string primitives used by the sources -/

/-- `pat` matches at the head of the string (both as char lists). -/
def leadsWith : List Char → List Char → Bool
  | [], _ => true
  | _ :: _, [] => false
  | a :: as, b :: bs => a = b && leadsWith as bs

/-- Python's substring containment `pat in s` (on char lists). -/
def containsSub (pat : List Char) : List Char → Bool
  | [] => leadsWith pat []
  | s@(_ :: rest) => leadsWith pat s || containsSub pat rest

/-- Python `pat in s` on strings. -/
def hasSubstr (s pat : String) : Bool := containsSub pat.data s.data

/-- Python `str.lower()` (ASCII case folding suffices for the sources). -/
def pyLower (s : String) : String := ⟨s.data.map Char.toLower⟩

/-- Python `str.strip()`: drop leading and trailing whitespace. -/
def pyStrip (l : List Char) : List Char :=
  ((l.dropWhile Char.isWhitespace).reverse.dropWhile Char.isWhitespace).reverse

/-- Index of the first occurrence of `c` (Python `str.find`, `none` for -1). -/
def findIdx : Char → List Char → Option Nat
  | _, [] => none
  | c, x :: xs => if x = c then some 0 else (findIdx c xs).map (· + 1)

/-- Index of the last occurrence of `c` (Python `str.rfind`, `none` for -1). -/
def rfindIdx (c : Char) : List Char → Option Nat
  | [] => none
  | x :: xs =>
      match rfindIdx c xs with
      | some k => some (k + 1)
      | none => if x = c then some 0 else none

/-! ### JSON values (the shape `json.loads` can deliver) -/

/-- A decoded JSON value.  `json.loads` itself is an external library and is
passed into the adapter embeddings as an oracle `String → Option (List (String × JVal))`
(the sliced text always starts with `{`, so a successful parse is an object). -/
inductive JVal where
  | null
  | bool (b : Bool)
  | num (q : ℚ)
  | str (s : String)
  | arr (elems : List JVal)
  | obj (fields : List (String × JVal))

/-- Python truthiness of a decoded JSON value. -/
def truthy : JVal → Bool
  | .null => false
  | .bool b => b
  | .num q => decide (q ≠ 0)
  | .str s => decide (s ≠ "")
  | .arr xs => !xs.isEmpty
  | .obj fs => !fs.isEmpty

/-- `dict.get(key, default)` on a decoded JSON object (duplicate keys:
the later one wins, as in `json.loads`). -/
def dictGet (fields : List (String × JVal)) (key : String) (dflt : JVal) : JVal :=
  match (fields.filter (fun p => p.1 = key)).getLast? with
  | some p => p.2
  | none => dflt

/-- Decimal parse backing `float(s)` for string arguments (sign, digits,
optional fraction; scientific notation and the inf/nan spellings are not
needed on any analysed path — an unparsable string is a `ValueError` either way). -/
def parseDecimal (l : List Char) : Option ℚ :=
  let l := pyStrip l
  let p := match l with
    | '-' :: r => ((-1 : ℚ), r)
    | '+' :: r => ((1 : ℚ), r)
    | _ => ((1 : ℚ), l)
  let intPart := p.2.takeWhile Char.isDigit
  let rest := p.2.dropWhile Char.isDigit
  let intVal : ℚ := (intPart.foldl (fun a c => 10 * a + (c.toNat - 48)) 0 : ℕ)
  match rest with
  | [] => if intPart.isEmpty then none else some (p.1 * intVal)
  | '.' :: frac =>
      if frac.all Char.isDigit && !(intPart.isEmpty && frac.isEmpty) then
        some (p.1 * (intVal +
          ((frac.foldl (fun a c => 10 * a + (c.toNat - 48)) 0 : ℕ) : ℚ) / 10 ^ frac.length))
      else none
  | _ => none

/-- Python `float(x)` on a decoded JSON value. -/
def pyFloat : JVal → Except PyErr ℚ
  | .num q => .ok q
  | .bool b => .ok (if b then 1 else 0)
  | .str s =>
      match parseDecimal s.data with
      | some q => .ok q
      | none => .error (.valueError ("could not convert string to float: " ++ s))
  | .null => .error (.typeError "float() argument must be a string or a real number, not 'NoneType'")
  | .arr _ => .error (.typeError "float() argument must be a string or a real number, not 'list'")
  | .obj _ => .error (.typeError "float() argument must be a string or a real number, not 'dict'")

/-- Rendering of a non-string JSON value kept as `reasoning` (the source keeps
the raw object; it is only ever interpolated into message strings later, and
no claim depends on the exact rendering). -/
def jvalRender : JVal → String
  | .null => "None"
  | .bool b => if b then "True" else "False"
  | .num q => toString q
  | .str s => s
  | .arr _ => "[...]"
  | .obj _ => "\x7b...\x7d"

/-- Comma-join (`", ".join`) over a list of decoded values: joins strings,
raises `TypeError` on a non-string element. -/
def joinStrs : List JVal → Except PyErr String
  | [] => .ok ""
  | [.str s] => .ok s
  | .str s :: rest => do pure (s ++ ", " ++ (← joinStrs rest))
  | _ => .error (.typeError "sequence item: expected str instance")

/-- Comma-join applied to the `spam_indicators` value: a list joins its
elements, a string joins its characters, a dict joins its keys, anything else
raises `TypeError`. -/
def joinComma : JVal → Except PyErr String
  | .arr xs => joinStrs xs
  | .str s => joinStrs (s.data.map (fun c => .str (String.mk [c])))
  | .obj fs => joinStrs (fs.map (fun p => .str p.1))
  | _ => .error (.typeError "can only join an iterable")

/-! ### Classifier adapters (`ollama_client.py`, `src/openai_client.py`) -/

/-- Field extraction shared by both adapters (`result.get(...)` with defaults,
`float(...)` on the confidence, indicator join appended to the reasoning);
the default reasoning string differs between the two clients.  The raw
`is_spam` value is kept by the sources and used only in boolean contexts
downstream (`and`, `if`), so it is embedded through Python truthiness. -/
def fieldsExtract (reasoningDefault : String) (fields : List (String × JVal)) :
    Except PyErr (Bool × ℚ × String) := do
  let isSpam := truthy (dictGet fields "is_spam" (.bool false))
  let conf ← pyFloat (dictGet fields "confidence" (.num 0))
  let reasoningVal := dictGet fields "reasoning" (.str reasoningDefault)
  let indicatorsVal := dictGet fields "spam_indicators" (.arr [])
  if truthy indicatorsVal then
    match reasoningVal with
    | .str s => do
        let j ← joinComma indicatorsVal
        pure (isSpam, conf, s ++ " Indicators: " ++ j)
    | _ => .error (.typeError "unsupported operand type(s) for +=")
  else
    pure (isSpam, conf, jvalRender reasoningVal)

/-- The lexical fallback of `OllamaClient._parse_spam_response` (operating on
the stripped response text). -/
def textFallback (s : List Char) : Bool × ℚ × String :=
  let lower := s.map Char.toLower
  if containsSub "spam".data lower &&
      (containsSub "true".data lower || containsSub "yes".data lower) then
    (true, 1/2, "Parsed from text response (JSON parsing failed)")
  else
    (false, 0, "Could not parse response, defaulting to not spam")

/-- The substring handed to `json.loads`: from the first `{` to the last `}`
(`none` exactly when `start_idx == -1 or end_idx == 0` in the source). -/
def jsonSlice (s : List Char) : Option (List Char) :=
  match findIdx '{' s, rfindIdx '}' s with
  | some i, some j => some ((s.drop i).take (j + 1 - i))
  | _, _ => none

/-- The `except (json.JSONDecodeError, ValueError, KeyError)` clause of
`_parse_spam_response`: those three fall back to the lexical heuristic,
anything else (e.g. `TypeError` from `float(None)`) propagates. -/
def routeCaught (s : List Char) :
    Except PyErr (Bool × ℚ × String) → Except PyErr (Bool × ℚ × String)
  | .ok r => .ok r
  | .error (.valueError _) => .ok (textFallback s)
  | .error (.keyError _) => .ok (textFallback s)
  | .error .jsonDecodeError => .ok (textFallback s)
  | .error e => .error e

/-- `OllamaClient._parse_spam_response`, with `json.loads` as an oracle. -/
def parse_spam_response (loads : String → Option (List (String × JVal)))
    (raw : String) : Except PyErr (Bool × ℚ × String) :=
  let s := pyStrip raw.data
  match jsonSlice s with
  | none => .ok (textFallback s)
  | some js =>
      match loads (String.mk js) with
      | none => .ok (textFallback s)
      | some fields => routeCaught s (fieldsExtract "No reasoning provided" fields)

/-- `OllamaClient.analyze_spam` after the chat call: `chat` is the outcome of
`self.client.chat(...)` (its response text, or the exception it raised); the
surrounding `except Exception` turns any escaped error into the safe default. -/
def ollama_analyze (chat : Except PyErr String)
    (loads : String → Option (List (String × JVal))) : Bool × ℚ × String :=
  match chat.bind (fun content => parse_spam_response loads content) with
  | .ok r => r
  | .error e => (false, 0, "Analysis failed: " ++ e.str)

/-- The exception-handler chain of `OpenAIClient.analyze_spam`:
`except json.JSONDecodeError` matches a JSON decode failure; for every other
exception Python then evaluates the clause `except openai.APIError`, and since
`src/openai_client.py` never binds the name `openai` (it only does
`from openai import OpenAI`), that evaluation raises `NameError`, which
escapes the adapter. -/
def openaiCatch (e : PyErr) : Except PyErr (Bool × ℚ × String) :=
  if e = .jsonDecodeError then .ok (false, 0, "AI response parsing failed (JSONDecodeError).")
  else .error (.nameError "openai")

/-- `OpenAIClient.analyze_spam` after prompt construction: `chat` is the
outcome of the chat-completions call; the whole response text is passed to
`json.loads` directly (no brace slicing, no lexical fallback). -/
def openai_analyze (chat : Except PyErr String)
    (loads : String → Option (List (String × JVal))) :
    Except PyErr (Bool × ℚ × String) :=
  match chat with
  | .error e => openaiCatch e
  | .ok content =>
      match loads content with
      | none => openaiCatch .jsonDecodeError
      | some fields =>
          match fieldsExtract "No reasoning provided by AI." fields with
          | .ok r => .ok r
          | .error e => openaiCatch e

/-! ### Ticket source adapter (`freshdesk_client.py`)

Remote state is a `Ticket`; the functions additionally return the ordered
trace of attempted remote calls and the resulting server state.  Whether each
remote call succeeds is an input (a failure oracle); a failed `PUT` leaves the
server state unchanged. -/

/-- The remote ticket state (the fields touched by the analysed operations). -/
structure Ticket where
  id : Nat
  responder_id : Option Nat
  tags : List String
  status : Nat
  subject : String
  description : String
  description_text : String
  requester_id : Option Nat
  created_at : String
deriving DecidableEq, Repr

/-- The partial-update dictionary passed to `update_ticket` (`some` = the key
is present in the request body). -/
structure Updates where
  responder_id : Option Nat := none
  tags : Option (List String) := none
  status : Option Nat := none
deriving DecidableEq, Repr

/-- Effect of a successful `PUT /tickets/{id}` with body `u`. -/
def applyUpdates (t : Ticket) (u : Updates) : Ticket :=
  { t with
    responder_id := match u.responder_id with | some v => some v | none => t.responder_id
    tags := u.tags.getD t.tags
    status := u.status.getD t.status }

/-- A ticket JSON object as returned to the caller (only the keys the claims
inspect; `none` = key absent from the returned dict). -/
structure TicketRepr where
  id : Nat
  responder_id : Option Nat := none
  tags : Option (List String) := none
  status : Option Nat := none
deriving DecidableEq, Repr

/-- The full JSON view of a server-side ticket. -/
def Ticket.toRepr (t : Ticket) : TicketRepr :=
  { id := t.id, responder_id := t.responder_id, tags := some t.tags, status := some t.status }

/-- Does a returned ticket representation reflect a requested update (every
field present in the request carries the requested value in the response)? -/
def reflectsB (r : TicketRepr) (u : Updates) : Bool :=
  (match u.responder_id with | some v => r.responder_id = some v | none => true) &&
  (match u.tags with | some v => r.tags = some v | none => true) &&
  (match u.status with | some v => r.status = some v | none => true)

/-- One attempted remote call of the ticket-source adapter. -/
inductive RemoteCall where
  | getTicket
  | getConversations
  | putTicket (u : Updates)
  | postNote (body : String) (priv : Bool)
deriving DecidableEq, Repr

/-- Is a remote call mutating (a `PUT` or `POST`)? -/
def RemoteCall.isMutating : RemoteCall → Bool
  | .putTicket _ => true
  | .postNote _ _ => true
  | _ => false

/-- `FreshdeskClient.update_ticket`.  `dryRun` is `Config.DRY_RUN_MODE`;
`getFails` is whether the dry-run `get_ticket` read fails; `putFails` is
whether the real `PUT` fails.  Returns (result-or-exception, server state
after the call, trace of attempted remote calls). -/
def update_ticket (dryRun getFails putFails : Bool) (server : Ticket) (u : Updates) :
    Except PyErr TicketRepr × Ticket × List RemoteCall :=
  if dryRun then
    if getFails then
      -- `return {"id": ticket_id, **updates}` fallback
      (.ok { id := server.id, responder_id := u.responder_id,
             tags := u.tags, status := u.status }, server, [.getTicket])
    else
      -- `return self.get_ticket(ticket_id)`: the *current* ticket data
      (.ok server.toRepr, server, [.getTicket])
  else
    if putFails then
      (.error (.requestError "update failed"), server, [.putTicket u])
    else
      (.ok (applyUpdates server u).toRepr, applyUpdates server u, [.putTicket u])

/-- The hard-coded handling agent of `mark_as_spam` ("Ria No"). -/
def agent_id_to_assign : Nat := 80059226092

/-- The sentinel tag list `['Auto-Spam-Detected']`. -/
def exclusive_tag : List String := ["Auto-Spam-Detected"]

/-- Failure oracle for one run of the `mark_as_spam` composite: whether the
initial read and each of the three possible updates fail when attempted. -/
structure MarkEnv where
  getFails : Bool := false
  assignFails : Bool := false
  tagsFails : Bool := false
  statusFails : Bool := false
deriving DecidableEq, Repr

/-- `FreshdeskClient.mark_as_spam`. -/
def mark_as_spam (dryRun : Bool) (env : MarkEnv) (server : Ticket) :
    Except PyErr TicketRepr × Ticket × List RemoteCall :=
  if dryRun then
    -- the attempted read feeds extra fields into the simulated dict; the four
    -- keys of `final_simulated_ticket` are set unconditionally, so the keys
    -- this model tracks do not depend on whether the read succeeded
    (.ok { id := server.id, responder_id := some agent_id_to_assign,
           tags := some exclusive_tag, status := some 5 }, server, [.getTicket])
  else
    if env.getFails then
      (.error (.requestError "get failed"), server, [.getTicket])
    else
      -- Step 1: assign to agent (only if not already assigned)
      let step1 : Except PyErr TicketRepr × Ticket × List RemoteCall :=
        if server.responder_id ≠ some agent_id_to_assign then
          update_ticket false false env.assignFails server
            { responder_id := some agent_id_to_assign }
        else
          (.ok server.toRepr, server, [])
      match step1 with
      | (.error e, s1, t1) => (.error e, s1, .getTicket :: t1)
      | (.ok _, s1, t1) =>
          -- Step 2: overwrite tags exclusively (always attempted)
          match update_ticket false false env.tagsFails s1 { tags := some exclusive_tag } with
          | (.error e, s2, t2) => (.error e, s2, .getTicket :: (t1 ++ t2))
          | (.ok _, s2, t2) =>
              -- Step 3: set status to 5 (Spam/Closed)
              match update_ticket false false env.statusFails s2 { status := some 5 } with
              | (r3, s3, t3) => (r3, s3, .getTicket :: (t1 ++ t2 ++ t3))

/-! ### Conversations and first-customer-message extraction -/

/-- One conversation entry of a ticket (the `private` flag is named `priv`:
`private` is a Lean keyword). -/
structure Conv where
  id : Nat
  priv : Bool
  incoming : Bool
  body : String
  body_text : String
  created_at : String
deriving DecidableEq, Repr

/-- Helper for `re.sub('<[^<]+?>', '', s)`: after a `<`, the shortest run of
one-or-more non-`<` characters terminated by `>`; returns the remainder after
the match, `none` if no match starts here. -/
def findGt : List Char → Option (List Char)
  | [] => none
  | c :: rest => if c = '>' then some rest else if c = '<' then none else findGt rest

/-- The tail after the shortest `[^<]+?>` match, if any. -/
def tagEnd : List Char → Option (List Char)
  | [] => none
  | c :: rest => if c = '<' then none else findGt rest

/-- Worker for the tag-deleting loop, structurally recursive on a fuel
counter so that it is kernel-computable.  Every step consumes at least one
character, so fuel equal to the input length is never exhausted. -/
def stripTagsGo : Nat → List Char → List Char
  | 0, l => l
  | _ + 1, [] => []
  | fuel + 1, c :: rest =>
      if c = '<' then
        match tagEnd rest with
        | some rest2 => stripTagsGo fuel rest2
        | none => c :: stripTagsGo fuel rest
      else c :: stripTagsGo fuel rest

/-- Python `re.sub('<[^<]+?>', '', s)`: repeatedly delete the leftmost
shortest `<[^<]+?>` match. -/
def stripTags (l : List Char) : List Char := stripTagsGo l.length l

/-- The sources strip HTML only when the text is nonempty and contains `<`
(`if description and '<' in description`). -/
def stripHtmlIf (s : String) : String :=
  if s ≠ "" && hasSubstr s "<" then ⟨stripTags s.data⟩ else s

/-- `body_text or body` / `description_text or description` (Python `or`
falls through on an empty string). -/
def orElseStr (a b : String) : String := if a ≠ "" then a else b

/-- The loop of `get_first_customer_message`: skip private notes, skip agent
replies (`incoming == False`), take the first remaining entry. -/
def findFirstCustomer : List Conv → Option Conv
  | [] => none
  | c :: rest =>
      if c.priv then findFirstCustomer rest
      else if c.incoming = false then findFirstCustomer rest
      else some c

/-- The dictionary `get_first_customer_message` returns. -/
structure FirstMessage where
  ticket_id : Nat
  subject : String
  description : String
  sender_email : Option Nat
  created_at : String
  conversation_id : Option Nat
deriving DecidableEq, Repr

/-- `FreshdeskClient.get_first_customer_message`, given the fetched ticket and
its conversation list. -/
def get_first_customer_message (t : Ticket) (convs : List Conv) : FirstMessage :=
  match findFirstCustomer convs with
  | some c =>
      { ticket_id := t.id
        subject := t.subject
        description := stripHtmlIf (orElseStr c.body_text c.body)
        sender_email := t.requester_id
        created_at := c.created_at
        conversation_id := some c.id }
  | none =>
      { ticket_id := t.id
        subject := t.subject
        description := stripHtmlIf (orElseStr t.description_text t.description)
        sender_email := t.requester_id
        created_at := t.created_at
        conversation_id := none }

/-! ### Orchestrator (`spam_filter.py`) -/

/-- The marker scanned for in existing private notes. -/
def generic_spam_alert_identifier : String := "Automatic Spam Detection Alert"

/-- The identifier written into newly added notes. -/
def current_ai_specific_identifier : String := "Automatic Spam Detection Alert (OpenAI)"

/-- `conv.get('body_text') or conv.get('body', '')`. -/
def noteBodyContent (c : Conv) : String := orElseStr c.body_text c.body

/-- Does a conversation entry count as an existing spam-alert note? -/
def hasSpamNote (c : Conv) : Bool :=
  c.priv && hasSubstr (noteBodyContent c) generic_spam_alert_identifier

/-- The default `Config.OPENAI_MODEL_NAME`. -/
def openai_model_name : String := "gpt-3.5-turbo"

/-- Two-decimal rendering backing the confidence interpolation in the note
(rounding mode is immaterial to every claim; only the marker substring of the
note matters).  Kept to integer arithmetic on the numerator/denominator. -/
def fmt2 (q : ℚ) : String :=
  let n : ℤ := q.num * 100 / (q.den : ℤ)
  let a := n.natAbs
  (if n < 0 then "-" else "") ++ toString (a / 100) ++ "." ++
    (if a % 100 < 10 then "0" else "") ++ toString (a % 100)

/-- The private-note body built by `handle_spam_ticket`. -/
def spamNoteContent (conf spamThreshold : ℚ) (reasoning : String) : String :=
  "\n            " ++ current_ai_specific_identifier ++
  "\n            Model: " ++ openai_model_name ++
  "\n            Confidence Score: " ++ fmt2 conf ++
  "\n            Analysis: " ++ reasoning ++
  "\n            \n            This ticket was automatically processed based on the AI analysis." ++
  "\n            Threshold for action was: " ++ toString spamThreshold ++
  "\n            "

/-- An orchestrator-level action on the ticket source. -/
inductive OrchAction where
  | checkConversations
  | addNote (body : String) (priv : Bool)
  | markSpam
deriving DecidableEq, Repr

/-- Environment of one `handle_spam_ticket` run: the ticket's conversation
entries as they exist remotely, whether listing them succeeds, and the
outcomes of the note-add and of the `mark_as_spam` composite if attempted. -/
structure HandleEnv where
  serverConvs : List Conv
  fetchOk : Bool := true
  noteResult : Except PyErr Unit := .ok ()
  markResult : Except PyErr Unit := .ok ()

/-- `SpamFilter.handle_spam_ticket`: returns (whether an exception escapes,
ordered trace of attempted ticket-source actions).  The nested `try/except`
blocks of the source are translated one-for-one. -/
def handle_spam_ticket (env : HandleEnv) (spamThreshold autoClose conf : ℚ)
    (reasoning : String) : Except PyErr Unit × List OrchAction :=
  -- note-adding path (reached when no existing note was found, or when the
  -- conversations fetch raised: "Proceeding to add note")
  let afterNoteCheck : Except PyErr Unit × List OrchAction :=
    let note := spamNoteContent conf spamThreshold reasoning
    -- `add_note_to_ticket` is wrapped in its own try/except: a failure is
    -- logged and execution continues
    if autoClose ≤ conf then
      match env.markResult with
      | .ok _ => (.ok (), [.checkConversations, .addNote note true, .markSpam])
      | .error e =>
          -- `mark_as_spam` here is NOT wrapped locally; the exception reaches
          -- the outer handler
          (.error e, [.checkConversations, .addNote note true, .markSpam])
    else
      (.ok (), [.checkConversations, .addNote note true])
  let inner : Except PyErr Unit × List OrchAction :=
    if env.fetchOk then
      match env.serverConvs.find? hasSpamNote with
      | some _ =>
          -- existing note found: skip the note, still ensure closure
          if autoClose ≤ conf then
            match env.markResult with
            | .ok _ => (.ok (), [.checkConversations, .markSpam])
            | .error _ =>
                -- this `mark_as_spam` call is wrapped in try/except: logged
                (.ok (), [.checkConversations, .markSpam])
          else
            (.ok (), [.checkConversations])
      | none => afterNoteCheck
    else
      afterNoteCheck
  -- outer `except Exception`: log and fall through
  match inner with
  | (.ok _, tr) => (.ok (), tr)
  | (.error _, tr) => (.ok (), tr)

/-- The sentinel phrase checked (case-insensitively) in the message body. -/
def system_validated_phrase : String := "USER INFORMATION WAS VALIDATED BY OUR SYSTEM"

/-- The dictionary `analyze_first_customer_message` returns. -/
structure AnalysisResult where
  ticket_id : Nat
  is_spam : Bool
  confidence : ℚ
  reasoning : String
  subject : String
  message_type : String
deriving DecidableEq, Repr

/-- `SpamFilter.analyze_first_customer_message`.  `classify` is the classifier
adapter (`analyze_spam`) as a function of the system-validated flag: its `.ok`
is the returned triple, its `.error` an exception it let escape. -/
def analyze_first_customer_message (env : HandleEnv) (spamThreshold autoClose : ℚ)
    (msg : FirstMessage) (classify : Bool → Except PyErr (Bool × ℚ × String)) :
    AnalysisResult × List OrchAction :=
  let isSysVal := hasSubstr (pyLower msg.description) (pyLower system_validated_phrase)
  let failResult : PyErr → AnalysisResult := fun e =>
    { ticket_id := msg.ticket_id, is_spam := false, confidence := 0
      reasoning := "Analysis failed: " ++ e.str, subject := msg.subject
      message_type := "first_customer_message" }
  match classify isSysVal with
  | .error e => (failResult e, [])
  | .ok (isSpamAi, conf, reasoning) =>
      let res : AnalysisResult :=
        { ticket_id := msg.ticket_id
          is_spam := isSpamAi && decide (spamThreshold ≤ conf)
          confidence := conf, reasoning := reasoning, subject := msg.subject
          message_type := "first_customer_message" }
      if res.is_spam then
        match handle_spam_ticket env spamThreshold autoClose conf reasoning with
        | (.ok _, tr) => (res, tr)
        | (.error e, tr) => (failResult e, tr)
      else
        (res, [])

/-- The per-cycle statistics dictionary. -/
structure Stats where
  total_processed : Nat := 0
  spam_detected : Nat := 0
  legitimate : Nat := 0
  errors : Nat := 0
  skipped_already_processed : Nat := 0
deriving DecidableEq, Repr

/-- The body of the per-ticket loop of `SpamFilter.process_tickets` for one
ticket id: `extract` is the outcome of `get_first_customer_message` for this
ticket (its `.error` a raised exception). -/
def processOne (extract : Except PyErr FirstMessage)
    (classify : Bool → Except PyErr (Bool × ℚ × String)) (env : HandleEnv)
    (spamThreshold autoClose : ℚ) (S : Finset ℕ) (st : Stats) (tid : ℕ) :
    Finset ℕ × Stats × List OrchAction :=
  if tid ∈ S then
    (S, { st with skipped_already_processed := st.skipped_already_processed + 1 }, [])
  else
    match extract with
    | .error _ =>
        (S, { st with errors := st.errors + 1 }, [])
    | .ok msg =>
        let p := analyze_first_customer_message env spamThreshold autoClose msg classify
        let st := { st with total_processed := st.total_processed + 1 }
        let st :=
          if p.1.is_spam then { st with spam_detected := st.spam_detected + 1 }
          else { st with legitimate := st.legitimate + 1 }
        (insert tid S, st, p.2)

/-- The per-ticket loop of `SpamFilter.process_tickets` over the fetched
batch (per-ticket oracles are indexed by the ticket id). -/
def process_tickets (extract : ℕ → Except PyErr FirstMessage)
    (classify : ℕ → Bool → Except PyErr (Bool × ℚ × String)) (env : ℕ → HandleEnv)
    (spamThreshold autoClose : ℚ) :
    List ℕ → Finset ℕ × Stats → Finset ℕ × Stats
  | [], acc => acc
  | tid :: rest, (S, st) =>
      let p := processOne (extract tid) (classify tid) (env tid)
        spamThreshold autoClose S st tid
      process_tickets extract classify env spamThreshold autoClose rest (p.1, p.2.1)

/-! ### Concrete fixtures for witnesses and counterexamples -/

/-- A sample remote ticket. -/
def sampleTicket : Ticket :=
  { id := 101, responder_id := none, tags := ["old-tag"], status := 2
    subject := "Hello", description := "<p>Hi</p>", description_text := "Hi"
    requester_id := some 555, created_at := "2024-01-01T00:00:00Z" }

/-- A ticket already fully marked as spam. -/
def markedTicket : Ticket :=
  { id := 9, responder_id := some agent_id_to_assign, tags := exclusive_tag, status := 5
    subject := "s", description := "d", description_text := "d"
    requester_id := none, created_at := "2024-01-01T00:00:00Z" }

/-- A tag-change request. -/
def tagUpdateReq : Updates := { tags := some ["new-tag"] }

/-- An existing private spam-alert note (as left by a previous run). -/
def markerNote : Conv :=
  { id := 1, priv := true, incoming := false, body := ""
    body_text := "Automatic Spam Detection Alert (OLLAMA) earlier analysis"
    created_at := "2024-01-01T00:00:00Z" }

/-- A handle environment whose conversation listing fails even though a
marker note exists remotely. -/
def fetchFailEnv : HandleEnv := { serverConvs := [markerNote], fetchOk := false }

/-- Is an orchestrator action the addition of a note whose body contains the
spam-alert marker? -/
def isMarkerNoteAdd : OrchAction → Bool
  | .addNote b _ => hasSubstr b generic_spam_alert_identifier
  | _ => false

/-- Is an orchestrator action the addition of any note? -/
def isNoteAdd : OrchAction → Bool
  | .addNote _ _ => true
  | _ => false

/-- A conversation entry qualifies as the first customer message when it is
not private and is incoming. -/
def qualifies (c : Conv) : Bool := !c.priv && c.incoming

/-- Did the message extraction for a ticket succeed? -/
def exOk (e : Except PyErr FirstMessage) : Bool :=
  match e with
  | .ok _ => true
  | .error _ => false

/-- Environment fixture: every spam action fails. -/
def allFailEnv : HandleEnv :=
  { serverConvs := [], fetchOk := false
    noteResult := .error (.requestError "note add failed")
    markResult := .error (.requestError "mark failed") }

/-- A sample extracted first customer message. -/
def msgFix : FirstMessage :=
  { ticket_id := 7, subject := "s", description := "d"
    sender_email := none, created_at := "", conversation_id := none }

/-- Extraction oracle fixture: ticket 2 fails, everything else succeeds. -/
def extractFix : ℕ → Except PyErr FirstMessage :=
  fun t => if t = 2 then .error (.requestError "conversations fetch failed") else .ok msgFix

/-- Conversation fixture: an agent reply, then a private note, then the first
genuine customer message (with HTML in its body text). -/
def convsFix : List Conv :=
  [{ id := 31, priv := false, incoming := false, body := "agent reply"
     body_text := "agent reply", created_at := "t1" },
   { id := 32, priv := true, incoming := true, body := "internal note"
     body_text := "internal note", created_at := "t2" },
   { id := 33, priv := false, incoming := true, body := ""
     body_text := "Hello <b>there</b>", created_at := "t3" }]

end SpamFilter

namespace SpamFilter

/-! ### Claim theorems -/

/-- C2 (code_bug): the Ollama adapter really does absorb every failed model
call into the safe default, but the OpenAI adapter cannot: because
`src/openai_client.py` never imports the `openai` module (only
`from openai import OpenAI`), evaluating its `except openai.APIError` clause
raises `NameError`, so an API/transport error from the chat call escapes the
adapter instead of producing `(False, 0.0, ...)`.  (The same file also uses
`Tuple` in an annotation without importing it, so importing the module fails
outright.) -/
theorem openai_transport_error_escapes :
    (∀ (e : PyErr) (loads : String → Option (List (String × JVal))),
        ollama_analyze (.error e) loads = (false, 0, "Analysis failed: " ++ e.str)) ∧
    openai_analyze (.error (.apiError "Connection error.")) (fun _ => none) =
      .error (.nameError "openai") :=
  ⟨fun _ _ => rfl, rfl⟩

/-- C6 (counterexample): in simulate mode, `update_ticket` on a ticket whose
current tags differ from the requested tags returns the fetched *current*
ticket, which does not reflect the requested change. -/
theorem dry_run_update_returns_current_state :
    (update_ticket true false false sampleTicket tagUpdateReq).1 =
      .ok sampleTicket.toRepr ∧
    reflectsB sampleTicket.toRepr tagUpdateReq = false :=
  ⟨rfl, rfl⟩

/-- C6 (amended): in simulate mode neither `update_ticket` nor `mark_as_spam`
issues a mutating remote call and the server state is untouched;
`mark_as_spam` returns a representation reflecting the composite change,
while `update_ticket` returns the current remote ticket state when the
read succeeds, and only its fallback dictionary (which does reflect the
requested change) when the read fails. -/
theorem dry_run_no_mutation (server : Ticket) (u : Updates) (g p : Bool) (env : MarkEnv) :
    (update_ticket true g p server u).2.2.all (fun c => !c.isMutating) = true ∧
    (update_ticket true g p server u).2.1 = server ∧
    (mark_as_spam true env server).2.2.all (fun c => !c.isMutating) = true ∧
    (mark_as_spam true env server).2.1 = server ∧
    (mark_as_spam true env server).1 =
      .ok { id := server.id, responder_id := some agent_id_to_assign,
            tags := some exclusive_tag, status := some 5 } ∧
    (update_ticket true false p server u).1 = .ok server.toRepr ∧
    (update_ticket true true p server u).1 =
      .ok { id := server.id, responder_id := u.responder_id,
            tags := u.tags, status := u.status } ∧
    reflectsB { id := server.id, responder_id := u.responder_id,
                tags := u.tags, status := u.status } u = true := by
  obtain ⟨ro, tg, st⟩ := u
  refine ⟨?_, ?_, rfl, rfl, rfl, rfl, rfl, ?_⟩
  · cases g <;> rfl
  · cases g <;> rfl
  · cases ro <;> cases tg <;> cases st <;> simp [reflectsB]

/-- C9 (counterexample): on a ticket already carrying exactly the sentinel
tag and the spam-closed status, re-running `mark_as_spam` still issues both
the tag `PUT` and the status `PUT` — those two steps are not check-then-update. -/
theorem mark_as_spam_reissues_updates :
    markedTicket.tags = exclusive_tag ∧ markedTicket.status = 5 ∧
    markedTicket.responder_id = some agent_id_to_assign ∧
    (mark_as_spam false {} markedTicket).2.2.filter RemoteCall.isMutating =
      [.putTicket { tags := some exclusive_tag }, .putTicket { status := some 5 }] :=
  ⟨rfl, rfl, rfl, rfl⟩

end SpamFilter

namespace SpamFilter

/-- Final server state of a failure-free `mark_as_spam` run. -/
theorem mark_as_spam_state_ok (server : Ticket) :
    (mark_as_spam false {} server).2.1 =
      { server with
        responder_id := some agent_id_to_assign
        tags := exclusive_tag
        status := 5 } := by
  by_cases h : server.responder_id = some agent_id_to_assign <;>
    simp [mark_as_spam, update_ticket, applyUpdates, h]

/-- C9 (amended): only the agent-assignment step of `mark_as_spam` is
check-then-update (no responder `PUT` is issued when the ticket is already
assigned to the handling agent); the tag and status steps always issue their
`PUT`s, but the composite is idempotent in its effect: re-running it on the
state it produced leaves the ticket unchanged. -/
theorem mark_as_spam_idempotent_effect (env : MarkEnv) (server : Ticket) :
    (server.responder_id = some agent_id_to_assign →
      RemoteCall.putTicket { responder_id := some agent_id_to_assign } ∉
        (mark_as_spam false env server).2.2) ∧
    (mark_as_spam false {} ((mark_as_spam false {} server).2.1)).2.1 =
      (mark_as_spam false {} server).2.1 := by
  constructor
  · intro h
    obtain ⟨g, a, tg, st⟩ := env
    cases g <;> cases a <;> cases tg <;> cases st <;>
      simp [mark_as_spam, update_ticket, applyUpdates, h]
  · rw [mark_as_spam_state_ok server, mark_as_spam_state_ok]

/-- Witness for the amended C9 at a concrete already-assigned ticket. -/
theorem mark_as_spam_idempotent_effect_witness :
    markedTicket.responder_id = some agent_id_to_assign ∧
    RemoteCall.putTicket { responder_id := some agent_id_to_assign } ∉
      (mark_as_spam false {} markedTicket).2.2 :=
  ⟨rfl, (mark_as_spam_idempotent_effect {} markedTicket).1 rfl⟩

/-- The mutating calls of a (non-simulated) `mark_as_spam` run are an ordered
subsequence of responder-PUT, tags-PUT, status-PUT. -/
theorem mark_puts_ordered (env : MarkEnv) (server : Ticket) :
    ((mark_as_spam false env server).2.2.filter RemoteCall.isMutating).Sublist
      [.putTicket { responder_id := some agent_id_to_assign },
       .putTicket { tags := some exclusive_tag },
       .putTicket { status := some 5 }] := by
  obtain ⟨g, a, tg, st⟩ := env
  by_cases h : server.responder_id = some agent_id_to_assign <;>
    cases g <;> cases a <;> cases tg <;> cases st <;>
    simp [mark_as_spam, update_ticket, h] <;>
    decide

/-- If the assignment step (when attempted) or the tag step fails, the whole
operation raises, the status `PUT` is never issued, and the remote status is
unchanged. -/
theorem mark_fail_no_status (env : MarkEnv) (server : Ticket)
    (hf : (env.assignFails = true ∧ server.responder_id ≠ some agent_id_to_assign) ∨
      env.tagsFails = true) :
    (∃ e, (mark_as_spam false env server).1 = .error e) ∧
    (mark_as_spam false env server).2.1.status = server.status ∧
    RemoteCall.putTicket { status := some 5 } ∉ (mark_as_spam false env server).2.2 := by
  obtain ⟨g, a, tg, st⟩ := env
  by_cases h : server.responder_id = some agent_id_to_assign <;>
    cases g <;> cases a <;> cases tg <;> cases st <;>
    simp_all [mark_as_spam, update_ticket, applyUpdates, h]

/-- C3 (confirmed): in the real (non-simulated) `mark_as_spam` composite the
agent assignment always precedes the tag overwrite, which always precedes the
status change (the issued mutating calls form an ordered subsequence of
assign-PUT, tags-PUT, status-PUT); and if the assignment or the tag overwrite
fails, the operation raises, the status update is never executed, and the
ticket status is unchanged. -/
theorem mark_as_spam_ordering (env : MarkEnv) (server : Ticket) :
    ((mark_as_spam false env server).2.2.filter RemoteCall.isMutating).Sublist
      [.putTicket { responder_id := some agent_id_to_assign },
       .putTicket { tags := some exclusive_tag },
       .putTicket { status := some 5 }] ∧
    ((env.assignFails = true ∧ server.responder_id ≠ some agent_id_to_assign) ∨
        env.tagsFails = true →
      (∃ e, (mark_as_spam false env server).1 = .error e) ∧
      (mark_as_spam false env server).2.1.status = server.status ∧
      RemoteCall.putTicket { status := some 5 } ∉ (mark_as_spam false env server).2.2) :=
  ⟨mark_puts_ordered env server, fun hf => mark_fail_no_status env server hf⟩

/-- Witness for C3 at a concrete failing tag step. -/
theorem mark_as_spam_ordering_witness :
    (∃ e, (mark_as_spam false { tagsFails := true } sampleTicket).1 = .error e) ∧
    (mark_as_spam false { tagsFails := true } sampleTicket).2.1.status =
      sampleTicket.status ∧
    RemoteCall.putTicket { status := some 5 } ∉
      (mark_as_spam false { tagsFails := true } sampleTicket).2.2 :=
  (mark_as_spam_ordering { tagsFails := true } sampleTicket).2 (Or.inr rfl)

end SpamFilter

namespace SpamFilter

/-- `handle_spam_ticket` never lets an exception escape: every failure of the
conversation check, the note add, or the `mark_as_spam` composite is absorbed
by the nested handlers and the outer catch-all. -/
theorem handle_spam_ticket_ok (env : HandleEnv) (thr act conf : ℚ) (r : String) :
    (handle_spam_ticket env thr act conf r).1 = .ok () := by
  obtain ⟨convs, fOk, nR, mR⟩ := env
  by_cases hc : act ≤ conf <;>
    cases fOk <;>
    rcases hfind : convs.find? hasSpamNote with _ | c <;>
    cases mR <;>
    simp [handle_spam_ticket, hfind, hc]

/-- `mark_as_spam` is attempted by `handle_spam_ticket` exactly when the
confidence meets the auto-close threshold, on every path. -/
theorem markSpam_mem_handle (env : HandleEnv) (thr act conf : ℚ) (r : String) :
    OrchAction.markSpam ∈ (handle_spam_ticket env thr act conf r).2 ↔ act ≤ conf := by
  obtain ⟨convs, fOk, nR, mR⟩ := env
  by_cases hc : act ≤ conf <;>
    cases fOk <;>
    rcases hfind : convs.find? hasSpamNote with _ | c <;>
    cases mR <;>
    simp [handle_spam_ticket, hfind, hc]

/-- C7 (amended): when the conversation listing succeeds and a marker note
already exists, `handle_spam_ticket` adds no note at all, and still invokes
the `mark_as_spam` composite exactly when the confidence meets the auto-close
threshold; the guard only holds when the listing succeeds (see the
counterexample for the failing-listing case). -/
theorem duplicate_note_guard (env : HandleEnv) (thr act conf : ℚ) (r : String)
    (hfetch : env.fetchOk = true) (hfound : env.serverConvs.any hasSpamNote = true) :
    (handle_spam_ticket env thr act conf r).2.any isNoteAdd = false ∧
    (act ≤ conf → OrchAction.markSpam ∈ (handle_spam_ticket env thr act conf r).2) := by
  obtain ⟨convs, fOk, nR, mR⟩ := env
  obtain ⟨c, hmem, hc⟩ := List.any_eq_true.mp hfound
  have hfind : ∃ d, convs.find? hasSpamNote = some d := by
    have := List.find?_isSome.mpr ⟨c, hmem, hc⟩
    rcases hfs : convs.find? hasSpamNote with _ | d
    · rw [hfs] at this; cases this
    · exact ⟨d, rfl⟩
  obtain ⟨d, hd⟩ := hfind
  subst hfetch
  by_cases hcc : act ≤ conf <;>
    cases mR <;>
    simp [handle_spam_ticket, hd, hcc, isNoteAdd]

/-- Witness for the amended C7: a concrete environment with a marker note and
a successful listing. -/
theorem duplicate_note_guard_witness :
    ({ serverConvs := [markerNote] : HandleEnv }).fetchOk = true ∧
    ({ serverConvs := [markerNote] : HandleEnv }).serverConvs.any hasSpamNote = true ∧
    (handle_spam_ticket { serverConvs := [markerNote] } 1 1 1 "r").2.any isNoteAdd = false :=
  ⟨rfl, by decide,
    (duplicate_note_guard { serverConvs := [markerNote] } 1 1 1 "r" rfl (by decide)).1⟩

/-- C7 (counterexample): if the conversation listing fails, the guard is
skipped ("Proceeding to add note") and a second marker note is added even
though one already exists in the ticket's conversation entries. -/
theorem duplicate_note_added_on_fetch_failure :
    fetchFailEnv.serverConvs.any hasSpamNote = true ∧
    fetchFailEnv.fetchOk = false ∧
    (handle_spam_ticket fetchFailEnv 1 1 1 "r").2.any isMarkerNoteAdd = true := by
  refine ⟨by decide, rfl, ?_⟩
  decide

end SpamFilter

namespace SpamFilter

/-- Characterization of `analyze_first_customer_message` when the classifier
returns normally: the decision is the conjunction of the adapter verdict and
the threshold gate, and the spam-handling actions run exactly when it holds. -/
theorem analyze_spam_case (env : HandleEnv) (thr act : ℚ) (msg : FirstMessage)
    (b : Bool) (conf : ℚ) (reas : String) :
    analyze_first_customer_message env thr act msg (fun _ => .ok (b, conf, reas)) =
      ({ ticket_id := msg.ticket_id, is_spam := b && decide (thr ≤ conf)
         confidence := conf, reasoning := reas, subject := msg.subject
         message_type := "first_customer_message" },
       if b && decide (thr ≤ conf) then (handle_spam_ticket env thr act conf reas).2
       else []) := by
  by_cases hfin : (b && decide (thr ≤ conf)) = true
  · rcases hh : handle_spam_ticket env thr act conf reas with ⟨er, tr⟩
    have hok := handle_spam_ticket_ok env thr act conf reas
    rw [hh] at hok
    cases er with
    | ok u =>
        cases u
        simp [analyze_first_customer_message, hfin, hh]
    | error e => exact absurd hok (by simp)
  · simp [analyze_first_customer_message, hfin]

/-- C1 (confirmed): the final spam decision equals
`classifier_is_spam AND confidence >= spam_threshold` (with `>=`, so equality
at the threshold counts as spam), and the `mark_as_spam` auto-close action is
attempted exactly when additionally `confidence >= auto_close_threshold`
(again inclusive at the boundary). -/
theorem decision_policy_and_auto_close (env : HandleEnv) (thr act : ℚ)
    (msg : FirstMessage) (b : Bool) (conf : ℚ) (reas : String) :
    (analyze_first_customer_message env thr act msg (fun _ => .ok (b, conf, reas))).1.is_spam
      = (b && decide (thr ≤ conf)) ∧
    (OrchAction.markSpam ∈
        (analyze_first_customer_message env thr act msg (fun _ => .ok (b, conf, reas))).2 ↔
      b = true ∧ thr ≤ conf ∧ act ≤ conf) := by
  rw [analyze_spam_case env thr act msg b conf reas]
  refine ⟨rfl, ?_⟩
  by_cases hfin : (b && decide (thr ≤ conf)) = true
  · rw [if_pos hfin]
    rw [markSpam_mem_handle env thr act conf reas]
    simp only [Bool.and_eq_true, decide_eq_true_eq] at hfin
    constructor
    · exact fun h => ⟨hfin.1, hfin.2, h⟩
    · exact fun h => h.2.2
  · rw [if_neg hfin]
    simp only [Bool.and_eq_true, decide_eq_true_eq] at hfin
    simp only [List.not_mem_nil, false_iff]
    intro h
    exact hfin ⟨h.1, h.2.1⟩

/-- C10 (confirmed): with an arbitrary combination of failures in the
conversation check, the note add, and the `mark_as_spam` composite, the
spam-handling step returns normally, the per-ticket loop sees no exception,
the `errors` counter is untouched, the ticket is counted in `spam_detected`,
and its id is added to the processed set (so it is not retried later). -/
theorem spam_action_failures_absorbed (env : HandleEnv) (thr act : ℚ)
    (msg : FirstMessage) (conf : ℚ) (reas : String) (S : Finset ℕ) (st : Stats)
    (tid : ℕ) (hS : tid ∉ S) (hconf : thr ≤ conf) :
    (handle_spam_ticket env thr act conf reas).1 = .ok () ∧
    (processOne (.ok msg) (fun _ => .ok (true, conf, reas)) env thr act S st tid).2.1.errors
      = st.errors ∧
    (processOne (.ok msg) (fun _ => .ok (true, conf, reas)) env thr act S st tid).2.1.spam_detected
      = st.spam_detected + 1 ∧
    tid ∈ (processOne (.ok msg) (fun _ => .ok (true, conf, reas)) env thr act S st tid).1 := by
  have hA := analyze_spam_case env thr act msg true conf reas
  have hd : decide (thr ≤ conf) = true := decide_eq_true hconf
  refine ⟨handle_spam_ticket_ok env thr act conf reas, ?_, ?_, ?_⟩ <;>
    simp [processOne, hS, hA, hd]

/-- Witness for C10: the classifier says spam with confidence at the
threshold, every remote spam action fails, and the counters/set behave as
claimed. -/
theorem spam_action_failures_absorbed_witness :
    (7 ∉ (∅ : Finset ℕ)) ∧ ((1 : ℚ) ≤ 1) ∧
    ((handle_spam_ticket allFailEnv 1 1 1 "r").1 = .ok () ∧
     (processOne (.ok msgFix)
        (fun _ => .ok (true, 1, "r")) allFailEnv 1 1 ∅ {} 7).2.1.errors
        = ({} : Stats).errors ∧
     (processOne (.ok msgFix)
        (fun _ => .ok (true, 1, "r")) allFailEnv 1 1 ∅ {} 7).2.1.spam_detected
        = ({} : Stats).spam_detected + 1 ∧
     7 ∈ (processOne (.ok msgFix)
        (fun _ => .ok (true, 1, "r")) allFailEnv 1 1 ∅ {} 7).1) :=
  ⟨by decide, by decide,
    spam_action_failures_absorbed allFailEnv 1 1 msgFix
      1 "r" ∅ {} 7 (by decide) (by decide)⟩

end SpamFilter

namespace SpamFilter

/-- The processed set after one loop iteration: the id is added exactly when
its extraction succeeded (a repeated id is skipped, which leaves the set
unchanged — the same value as the redundant insert). -/
theorem processOne_set (extract : Except PyErr FirstMessage)
    (classify : Bool → Except PyErr (Bool × ℚ × String)) (env : HandleEnv)
    (thr act : ℚ) (S : Finset ℕ) (st : Stats) (tid : ℕ) :
    (processOne extract classify env thr act S st tid).1 =
      if exOk extract then insert tid S else S := by
  by_cases h : tid ∈ S
  · cases extract <;>
      simp [processOne, h, exOk, (Finset.insert_eq_self.mpr h)]
  · cases extract <;> simp [processOne, h, exOk]

/-- The processed set after a whole cycle is the initial set united with the
ids whose extraction succeeded. -/
theorem process_tickets_set (extract : ℕ → Except PyErr FirstMessage)
    (classify : ℕ → Bool → Except PyErr (Bool × ℚ × String)) (env : ℕ → HandleEnv)
    (thr act : ℚ) (tickets : List ℕ) :
    ∀ (S0 : Finset ℕ) (st0 : Stats),
      (process_tickets extract classify env thr act tickets (S0, st0)).1 =
        S0 ∪ (tickets.filter (fun t => exOk (extract t))).toFinset := by
  induction tickets with
  | nil => intro S0 st0; simp [process_tickets]
  | cons tid rest ih =>
      intro S0 st0
      simp only [process_tickets]
      rw [ih]
      rw [processOne_set]
      by_cases h : exOk (extract tid)
      · simp [List.filter_cons, h, Finset.insert_union, Finset.union_insert]
      · simp [List.filter_cons, h]

/-- C8 (confirmed): over a processing cycle the in-memory processed set only
grows; a ticket id is added exactly when (not already present and) its
message extraction succeeded — regardless of the spam/legitimate outcome —
and an id whose extraction failed is not added, so it can be retried later.
(`Finset` membership makes "exactly once" literal: re-adding is a no-op.) -/
theorem processed_set_growth (extract : ℕ → Except PyErr FirstMessage)
    (classify : ℕ → Bool → Except PyErr (Bool × ℚ × String)) (env : ℕ → HandleEnv)
    (thr act : ℚ) (tickets : List ℕ) (S0 : Finset ℕ) (st0 : Stats) :
    (process_tickets extract classify env thr act tickets (S0, st0)).1 =
      S0 ∪ (tickets.filter (fun t => exOk (extract t))).toFinset ∧
    S0 ⊆ (process_tickets extract classify env thr act tickets (S0, st0)).1 ∧
    (∀ t, exOk (extract t) = false →
      (t ∈ (process_tickets extract classify env thr act tickets (S0, st0)).1 ↔ t ∈ S0)) := by
  have h := process_tickets_set extract classify env thr act tickets S0 st0
  refine ⟨h, ?_, ?_⟩
  · rw [h]
    exact Finset.subset_union_left
  · intro t ht
    rw [h]
    simp only [Finset.mem_union, List.mem_toFinset, List.mem_filter]
    constructor
    · rintro (hS | ⟨_, hok⟩)
      · exact hS
      · rw [ht] at hok
        cases hok
    · exact Or.inl

/-- Witness for C8 on a concrete batch: the failed id 2 is not added, while
the successfully extracted id 1 is. -/
theorem processed_set_growth_witness :
    exOk (extractFix 2) = false ∧
    (2 ∈ (process_tickets extractFix (fun _ _ => .ok (false, 0, "ok")) (fun _ => allFailEnv)
        1 1 [1, 2] (∅, {})).1 ↔ 2 ∈ (∅ : Finset ℕ)) :=
  ⟨rfl,
    (processed_set_growth extractFix (fun _ _ => .ok (false, 0, "ok")) (fun _ => allFailEnv)
      1 1 [1, 2] ∅ {}).2.2 2 rfl⟩

end SpamFilter

namespace SpamFilter

/-- The skip-skip-take loop is exactly a first-match search for
`not private AND incoming`. -/
theorem findFirstCustomer_eq (convs : List Conv) :
    findFirstCustomer convs = convs.find? qualifies := by
  induction convs with
  | nil => rfl
  | cons c rest ih =>
      by_cases hp : c.priv <;> by_cases hi : c.incoming <;>
        simp [findFirstCustomer, List.find?_cons, qualifies, hp, hi, ih]

/-- A first-match search returns the entry at the least satisfying index. -/
theorem find?_earliest (p : Conv → Bool) (l : List Conv) :
    ∀ (i : ℕ) (hi : i < l.length), p l[i] = true →
      (∀ (j : ℕ) (hj : j < l.length), j < i → p l[j] = false) →
      l.find? p = some l[i] := by
  induction l with
  | nil => intro i hi; exact absurd hi (by simp)
  | cons x xs ih =>
      intro i hi hq hmin
      cases i with
      | zero =>
          simp only [List.getElem_cons_zero] at hq
          simp [List.find?_cons, hq]
      | succ k =>
          have hx : p x = false := by
            have := hmin 0 (by simp) (Nat.succ_pos k)
            simpa using this
          have hk : k < xs.length := Nat.lt_of_succ_lt_succ (by simpa using hi)
          have hshift : ∀ (j : ℕ) (hj : j < xs.length), j < k → p xs[j] = false := by
            intro j hj hjk
            have := hmin (j + 1) (by simpa using Nat.succ_lt_succ hj)
              (Nat.succ_lt_succ hjk)
            simpa using this
          have hqk : p xs[k] = true := by simpa using hq
          simp only [List.find?_cons, hx, List.getElem_cons_succ]
          exact ih k hk hqk hshift

/-- C4 (confirmed): `get_first_customer_message` returns the earliest
conversation entry with `private = false` and `incoming = true`, carrying the
(HTML-stripped) `body_text`-or-`body` of that entry; when no entry qualifies
it falls back to the ticket's own description with a null conversation id. -/
theorem first_customer_message_selection (t : Ticket) (convs : List Conv) :
    ((∀ c ∈ convs, qualifies c = false) →
      (get_first_customer_message t convs).conversation_id = none ∧
      (get_first_customer_message t convs).description =
        stripHtmlIf (orElseStr t.description_text t.description)) ∧
    (∀ (i : ℕ) (hi : i < convs.length), qualifies convs[i] = true →
      (∀ (j : ℕ) (hj : j < convs.length), j < i → qualifies convs[j] = false) →
      (get_first_customer_message t convs).conversation_id = some (convs[i]).id ∧
      (get_first_customer_message t convs).description =
        stripHtmlIf (orElseStr (convs[i]).body_text (convs[i]).body)) := by
  constructor
  · intro hall
    have hf : findFirstCustomer convs = none := by
      rw [findFirstCustomer_eq]
      exact List.find?_eq_none.mpr (fun c hc => by simp [hall c hc])
    simp [get_first_customer_message, hf]
  · intro i hi hq hmin
    have hf : findFirstCustomer convs = some convs[i] := by
      rw [findFirstCustomer_eq]
      exact find?_earliest qualifies convs i hi hq hmin
    simp [get_first_customer_message, hf]

/-- Witness for C4: on the fixture thread the third entry (index 2) is the
earliest qualifying one and its HTML is stripped. -/
theorem first_customer_message_selection_witness :
    qualifies (convsFix[2]) = true ∧
    (get_first_customer_message sampleTicket convsFix).conversation_id = some 33 ∧
    (get_first_customer_message sampleTicket convsFix).description = "Hello there" := by
  have h := (first_customer_message_selection sampleTicket convsFix).2 2
    (by decide) (by decide) (by decide)
  exact ⟨by decide, h.1, h.2.trans (by decide)⟩

end SpamFilter

namespace SpamFilter

/-- `findIdx` returns the least index holding `c`. -/
theorem findIdx_spec (c : Char) (l : List Char) :
    ∀ (i : ℕ), findIdx c l = some i →
      l[i]? = some c ∧ ∀ k, k < i → l[k]? ≠ some c := by
  induction l with
  | nil => intro i h; cases h
  | cons x xs ih =>
      intro i h
      by_cases hx : x = c
      · simp only [findIdx, if_pos hx] at h
        injection h with hh
        subst hh
        subst hx
        exact ⟨by simp, fun k hk => absurd hk (Nat.not_lt_zero k)⟩
      · simp only [findIdx, if_neg hx] at h
        rcases hxs : findIdx c xs with _ | i2 <;> rw [hxs] at h
        · cases h
        · simp only [Option.map_some'] at h
          injection h with hh
          subst hh
          obtain ⟨h1, h2⟩ := ih i2 hxs
          refine ⟨by simpa using h1, ?_⟩
          intro k hk
          cases k with
          | zero => simp [hx]
          | succ k2 => simpa using h2 k2 (Nat.lt_of_succ_lt_succ hk)

/-- A failed `rfindIdx` means the character occurs nowhere. -/
theorem rfindIdx_none (c : Char) (l : List Char) :
    rfindIdx c l = none → ∀ (k : ℕ), l[k]? ≠ some c := by
  induction l with
  | nil => intro _ k; simp
  | cons x xs ih =>
      intro h k
      simp only [rfindIdx] at h
      rcases hxs : rfindIdx c xs with _ | j <;> rw [hxs] at h
      · by_cases hx : x = c
        · rw [if_pos hx] at h; cases h
        · cases k with
          | zero => simp [hx]
          | succ k2 => simpa using ih hxs k2
      · cases h

/-- `rfindIdx` returns the greatest index holding `c`. -/
theorem rfindIdx_spec (c : Char) (l : List Char) :
    ∀ (j : ℕ), rfindIdx c l = some j →
      l[j]? = some c ∧ ∀ k, j < k → l[k]? ≠ some c := by
  induction l with
  | nil => intro j h; cases h
  | cons x xs ih =>
      intro j h
      simp only [rfindIdx] at h
      rcases hxs : rfindIdx c xs with _ | j2 <;> rw [hxs] at h
      · by_cases hx : x = c
        · rw [if_pos hx] at h
          injection h with hh
          subst hh
          subst hx
          refine ⟨by simp, ?_⟩
          intro k hk
          cases k with
          | zero => exact absurd hk (lt_irrefl 0)
          | succ k2 => simpa using rfindIdx_none _ xs hxs k2
        · rw [if_neg hx] at h; cases h
      · injection h with hh
        subst hh
        obtain ⟨h1, h2⟩ := ih j2 hxs
        refine ⟨by simpa using h1, ?_⟩
        intro k hk
        cases k with
        | zero => exact absurd hk (Nat.not_lt_zero _)
        | succ k2 => simpa using h2 k2 (Nat.lt_of_succ_lt_succ hk)

/-- The slice handed to the JSON parser really is the substring from the
first `{` to the last `}`: the text decomposes around it, with no `{` before
it and no `}` after it. -/
theorem jsonSlice_decomposition (s : List Char) (i j : ℕ)
    (hi : findIdx '{' s = some i) (hj : rfindIdx '}' s = some j) (hij : i ≤ j) :
    ∃ a b, s = a ++ (s.drop i).take (j + 1 - i) ++ b ∧
      '{' ∉ a ∧ '}' ∉ b ∧
      ((s.drop i).take (j + 1 - i)).head? = some '{' ∧
      ((s.drop i).take (j + 1 - i)).getLast? = some '}' := by
  obtain ⟨hgi, hmin⟩ := findIdx_spec '{' s i hi
  obtain ⟨hgj, hmax⟩ := rfindIdx_spec '}' s j hj
  obtain ⟨hjlen, hgje⟩ := List.getElem?_eq_some.mp hgj
  obtain ⟨hilen, hgie⟩ := List.getElem?_eq_some.mp hgi
  refine ⟨s.take i, s.drop (j + 1), ?_, ?_, ?_, ?_, ?_⟩
  · have h1 : (s.drop i).take (j + 1 - i) ++ (s.drop i).drop (j + 1 - i) = s.drop i :=
      List.take_append_drop _ _
    have h2 : (s.drop i).drop (j + 1 - i) = s.drop (j + 1) := by
      rw [List.drop_drop]
      congr 1
      omega
    calc s = s.take i ++ s.drop i := (List.take_append_drop i s).symm
      _ = s.take i ++ ((s.drop i).take (j + 1 - i) ++ (s.drop i).drop (j + 1 - i)) := by
            rw [h1]
      _ = s.take i ++ (s.drop i).take (j + 1 - i) ++ s.drop (j + 1) := by
            rw [h2, ← List.append_assoc]
  · intro hmem
    obtain ⟨k, hk⟩ := List.mem_iff_getElem?.mp hmem
    rw [List.getElem?_take] at hk
    by_cases hki : k < i
    · rw [if_pos hki] at hk
      exact hmin k hki hk
    · rw [if_neg hki] at hk
      cases hk
  · intro hmem
    obtain ⟨k, hk⟩ := List.mem_iff_getElem?.mp hmem
    rw [List.getElem?_drop] at hk
    exact hmax (j + 1 + k) (by omega) hk
  · rw [List.head?_eq_getElem?, List.getElem?_take, if_pos (by omega), List.getElem?_drop]
    simpa using hgi
  · have hlen : ((s.drop i).take (j + 1 - i)).length = j + 1 - i := by
      rw [List.length_take, List.length_drop]
      exact min_eq_left (by omega)
    rw [List.getLast?_eq_getElem?, hlen]
    have hidx : j + 1 - i - 1 = j - i := by omega
    rw [hidx, List.getElem?_take, if_pos (by omega), List.getElem?_drop]
    have hij2 : i + (j - i) = j := by omega
    rw [hij2]
    exact hgj

end SpamFilter

namespace SpamFilter

/-- C5 (counterexample): the claim describes the Ollama parsing for "the
Classifier Adapter", but the OpenAI adapter — the one `spam_filter.py`
instantiates — has no lexical fallback: on a parse failure over text
containing "spam" and "true" it returns not-spam with confidence 0.0 instead
of spam with 0.5. -/
theorem openai_no_lexical_fallback :
    hasSubstr (pyLower "this is spam: true") "spam" = true ∧
    hasSubstr (pyLower "this is spam: true") "true" = true ∧
    openai_analyze (.ok "this is spam: true") (fun _ => none) =
      .ok (false, 0, "AI response parsing failed (JSONDecodeError).") ∧
    openai_analyze (.ok "this is spam: true") (fun _ => none) ≠
      .ok (true, 1/2, "Parsed from text response (JSON parsing failed)") := by
  refine ⟨by decide, by decide, rfl, ?_⟩
  intro h
  rw [show openai_analyze (.ok "this is spam: true") (fun _ => none) =
      .ok (false, 0, "AI response parsing failed (JSONDecodeError).") from rfl] at h
  have := Except.ok.inj h
  simp at this

/-- C5 (amended): the Ollama adapter's `_parse_spam_response` slices the
stripped raw output from the first `{` to the last `}` and hands exactly that
substring to the JSON parser; when no such slice exists or the parse fails it
returns the lexical fallback (spam with confidence 1/2 when the lowercased
text contains "spam" with "true" or "yes", else not-spam with 0.0); the
OpenAI adapter instead parses the whole response and returns not-spam 0.0 on
parse failure, with no lexical fallback. -/
theorem response_parsing_slice_and_fallback
    (loads : String → Option (List (String × JVal))) (raw : String) :
    (jsonSlice (pyStrip raw.data) = none →
      parse_spam_response loads raw = .ok (textFallback (pyStrip raw.data))) ∧
    (∀ js, jsonSlice (pyStrip raw.data) = some js → loads (String.mk js) = none →
      parse_spam_response loads raw = .ok (textFallback (pyStrip raw.data))) ∧
    (jsonSlice (pyStrip raw.data) = none ↔
      findIdx '{' (pyStrip raw.data) = none ∨ rfindIdx '}' (pyStrip raw.data) = none) ∧
    (∀ i j, findIdx '{' (pyStrip raw.data) = some i →
      rfindIdx '}' (pyStrip raw.data) = some j → i ≤ j →
      jsonSlice (pyStrip raw.data) =
        some (((pyStrip raw.data).drop i).take (j + 1 - i)) ∧
      ∃ a b, pyStrip raw.data = a ++ ((pyStrip raw.data).drop i).take (j + 1 - i) ++ b ∧
        '{' ∉ a ∧ '}' ∉ b ∧
        (((pyStrip raw.data).drop i).take (j + 1 - i)).head? = some '{' ∧
        (((pyStrip raw.data).drop i).take (j + 1 - i)).getLast? = some '}') ∧
    (textFallback (pyStrip raw.data) =
      if containsSub "spam".data ((pyStrip raw.data).map Char.toLower) &&
          (containsSub "true".data ((pyStrip raw.data).map Char.toLower) ||
           containsSub "yes".data ((pyStrip raw.data).map Char.toLower)) then
        (true, 1/2, "Parsed from text response (JSON parsing failed)")
      else (false, 0, "Could not parse response, defaulting to not spam")) ∧
    (loads raw = none →
      openai_analyze (.ok raw) loads =
        .ok (false, 0, "AI response parsing failed (JSONDecodeError).")) := by
  refine ⟨?_, ?_, ?_, ?_, rfl, ?_⟩
  · intro h
    simp [parse_spam_response, h]
  · intro js hjs hl
    simp [parse_spam_response, hjs, hl]
  · constructor
    · intro h
      rcases hf : findIdx '{' (pyStrip raw.data) with _ | i
      · exact Or.inl rfl
      · rcases hr : rfindIdx '}' (pyStrip raw.data) with _ | j
        · exact Or.inr rfl
        · rw [jsonSlice, hf, hr] at h
          cases h
    · intro h
      rcases h with h | h <;> simp [jsonSlice, h]
  · intro i j hf hr hij
    refine ⟨by rw [jsonSlice, hf, hr], ?_⟩
    exact jsonSlice_decomposition (pyStrip raw.data) i j hf hr hij
  · intro h
    simp [openai_analyze, h, openaiCatch]

/-- Witness for the amended C5: a brace-free response falls back to the
lexical heuristic, which fires on "spam ... yes". -/
theorem response_parsing_fallback_witness :
    jsonSlice (pyStrip "is this spam? yes it is".data) = none ∧
    parse_spam_response (fun _ => none) "is this spam? yes it is" =
      .ok (true, 1/2, "Parsed from text response (JSON parsing failed)") := by
  have h := (response_parsing_slice_and_fallback (fun _ => none) "is this spam? yes it is").1
  exact ⟨by decide, (h (by decide)).trans (by rfl)⟩

end SpamFilter
